import Mathlib

/-!
Verification development for the `rips` library, a safe wrapper over a native
image-processing library (libvips). The Rust sources (src/lib.rs, src/utils.rs)
are shallowly embedded below: pointers become natural numbers with 0 as the
null sentinel, byte strings (Rust `Vec<u8>` / `CString` contents) become
`List Nat`, `f64` scale factors become `ℚ` (the wrapper only divides two exact
`i32`-derived values and compares for equality), and every native call made by
a wrapper function is recorded in an explicit event trace. Native behaviour
(what a vips entry point returns) is supplied as an explicit environment
parameter, since the native library is an external collaborator.
-/

namespace Rips

/-- Model of a raw native pointer; `0` is the null sentinel. -/
abbrev Ptr := Nat

/-- Model of the error type of the `err` module in src/lib.rs: a tagged union
over a native vips error with optional captured message, an embedded-nul
string-conversion error (carrying the byte position of the first nul, as the
Rust `NulError` does), an I/O error and a boxed opaque error. -/
inductive Error where
  | Vips (msg : Option String)
  | NulError (pos : Nat)
  | Io (msg : String)
  | Boxed (msg : String)
deriving DecidableEq, Repr

/-- Model of `CString::new` from the Rust standard library, as used by the
wrapper: conversion fails with a `NulError` carrying the position of the first
embedded nul byte, and otherwise returns the bytes unchanged. -/
def cstring_new (bs : List Nat) : Except Error (List Nat) :=
  if bs.contains 0 then Except.error (Error.NulError (bs.findIdx (fun b => b = 0)))
  else Except.ok bs

/-- Model of `Error::from_vips` (src/lib.rs lines 23-33): the current native
error buffer is read; a null buffer pointer yields a message-less `Vips`
error, and a non-null buffer yields a `Vips` error carrying the decoded
buffer content. The buffer is modelled as `Option String`: `none` for a null
pointer, `some s` for a non-null C string whose lossily decoded content is
`s` (the lossy decoding of `CStr::to_string_lossy` is total and never fails,
so it is abstracted as the already-decoded content; an empty C string decodes
to the empty string). -/
def from_vips (errBuf : Option String) : Error :=
  match errBuf with
  | none => Error.Vips none
  | some s => Error.Vips (some s)

/-- Model of the `Display` implementation for `Error` (src/lib.rs lines
36-58): a message-less vips error renders as the fixed fallback string
"Unknown VIPS error"; a vips error with a captured message renders as that
message; the remaining variants render their underlying description. -/
def display : Error → String
  | Error.Vips none => "Unknown VIPS error"
  | Error.Vips (some m) => m
  | Error.NulError pos => "nul byte found in provided data at position: " ++ toString pos
  | Error.Io m => m
  | Error.Boxed m => m

/-- One argument of a native variadic call, as assembled by the `var_args!`
macro (src/utils.rs): an input image pointer, the address of the output image
pointer, an `f64` value (modelled as `ℚ`), a key string for an optional
keyed argument, an enumeration value (such as a `VipsKernel` member), or the
null terminator. -/
inductive Arg where
  | img (p : Ptr)
  | outp
  | f (x : ℚ)
  | key (s : String)
  | enum (k : Int)
  | nullTerm
deriving DecidableEq, Repr

/-- Events recording the observable native calls and resource actions the
wrapper performs, in order. -/
inductive VEvent where
  | vipsInit (name : List Nat)
  | vipsLeakSet (b : Bool)
  | registerAtexit
  | newFromFile (path : List Nat)
  | newFromMemory (len : Nat) (width height bands : Int) (format : Int)
  | signalConnectPostclose (handle : Ptr) (buf : List Nat)
  | vipsResize (args : List Arg) (ret : Int)
  | vipsCrop (inp : Ptr) (left top width height : Int) (ret : Int)
  | vipsRot (inp : Ptr) (angle : Int) (ret : Int)
  | writeToBuffer (inp : Ptr) (suffix : List Nat) (ret : Int)
  | claimBuffer (bytes : List Nat)
  | unref (p : Ptr)
deriving DecidableEq, Repr

/-- Model of `InitOptions` (src/lib.rs lines 79-94): two independent optional
fields, the program name (a Rust `String`, modelled as its bytes, which may
contain embedded nul bytes) and the leak-check toggle. -/
structure InitOptions where
  name : Option (List Nat)
  leak_checks_on : Option Bool
deriving DecidableEq, Repr

/-- The byte content of the default program name literal "rips". -/
def ripsName : List Nat := [114, 105, 112, 115]

/-- Native calls performed by the body of the `Once::call_once` closure in
`initialize_with_maybe_options` (src/lib.rs lines 104-130): the program name
is converted with `CString::new(..).ok()` and on conversion failure or an
absent name the default literal "rips" is used; `vips_init` is invoked with
the resulting name; `vips_leak_set` is invoked exactly when the leak-check
option is present; finally the `atexit` shutdown hook is registered. -/
def init_events (opts : Option InitOptions) : List VEvent :=
  let o := opts.getD ⟨none, none⟩
  let nameEv :=
    match o.name.bind (fun n => (cstring_new n).toOption) with
    | some n => VEvent.vipsInit n
    | none => VEvent.vipsInit ripsName
  nameEv ::
    ((match o.leak_checks_on with
      | some b => [VEvent.vipsLeakSet b]
      | none => []) ++ [VEvent.registerAtexit])

/-- Process-wide initialization state: whether the `Once` guard has already
run, together with the accumulated trace of native calls. -/
structure InitState where
  ran : Bool
  calls : List VEvent
deriving DecidableEq, Repr

/-- Model of `initialize_with_maybe_options` (src/lib.rs lines 104-130): the
`Once` guard runs its closure only if it has not run before; afterwards the
guard is marked as run. A later call changes nothing. -/
def init_with_maybe_options (opts : Option InitOptions) (s : InitState) : InitState :=
  if s.ran then s
  else { ran := true, calls := s.calls ++ init_events opts }

/-- Model of the public `initialize_with_options` (src/lib.rs lines 100-102). -/
def init_with_options (opts : InitOptions) (s : InitState) : InitState :=
  init_with_maybe_options (some opts) s

/-- Model of the private `initialize` (src/lib.rs lines 132-134), called by
every image-constructing operation. -/
def ensure_init (s : InitState) : InitState :=
  init_with_maybe_options none s

/-- Trace of native calls contributed by the implicit `initialize()` at the
start of an image-constructing operation, as a function of whether the
process-wide guard has already run. -/
def init_trace (ran : Bool) : List VEvent :=
  if ran then [] else init_events none

/-- Model of the `var_args!` macro (src/utils.rs lines 1-12): the argument
list of the assembled native call. The macro recurses over the list of
optional (key, value) entries: an entry whose value is present appends its
key and the unwrapped value to the accumulated required arguments, an absent
entry appends nothing; when no optional entries remain, the terminator is
appended after the accumulated arguments. -/
def var_args (args : List Arg) (opts : List (String × Option Arg)) (term : Arg) : List Arg :=
  match opts with
  | [] => args ++ [term]
  | (k, some v) :: rest => var_args (args ++ [Arg.key k, v]) rest term
  | (_, none) :: rest => var_args args rest term

/-- The (key, value) pairs contributed by a list of optional entries, in
declaration order, keeping only the entries whose value is present. -/
def optPairs (opts : List (String × Option Arg)) : List Arg :=
  match opts with
  | [] => []
  | (k, some v) :: rest => Arg.key k :: v :: optPairs rest
  | (_, none) :: rest => optPairs rest

/-- The argument list of the `vips_resize` call assembled by the `var_args!`
invocation in `Image::resize` (src/lib.rs lines 229-234): required arguments
are the input image, the output image address and the scale; the optional
entries are ("vscale", vscale) and ("kernel", kernel) in that order; the call
is terminated by the null terminator. -/
def vips_resize_args (inp : Ptr) (scale : ℚ) (vscale : Option ℚ) (kernel : Option Int) :
    List Arg :=
  var_args [Arg.img inp, Arg.outp, Arg.f scale]
    [("vscale", vscale.map Arg.f), ("kernel", kernel.map Arg.enum)] Arg.nullTerm

/-- Model of `Drop for Image` (src/lib.rs lines 138-144): the destructor
unconditionally issues one `g_object_unref` on whatever pointer the wrapper
holds — there is no null check, so a wrapper holding the null sentinel of
`Image::new` (src/lib.rs lines 147-149) still emits `unref 0`. -/
def imageDrop (p : Ptr) : List VEvent := [VEvent.unref p]

/-- Native behaviour supplied to a transform operation: the status code the
native call returns, the pointer it stores through the output parameter when
it succeeds, and the state of the native error buffer. On a nonzero status
the native call is modelled as leaving the output parameter untouched, so the
output wrapper keeps the null sentinel it was created with (spec data-model
invariant: output wrappers are populated only by a successful native call). -/
structure TransformEnv where
  ret : Int
  outPtr : Ptr
  errBuf : Option String
deriving DecidableEq, Repr

/-- Model of `Image::resize` (src/lib.rs lines 221-240): a fresh output
wrapper starts at the null sentinel; the native resize is invoked with the
argument list assembled by `var_args!`; a zero status yields the populated
output wrapper, a nonzero status yields the error captured from the native
buffer, and the discarded output wrapper is dropped, emitting its
unconditional unref. -/
def resize (env : TransformEnv) (selfPtr : Ptr) (scale : ℚ) (vscale : Option ℚ)
    (kernel : Option Int) : Except Error Ptr × List VEvent :=
  let out : Ptr := 0
  let callEv := VEvent.vipsResize (vips_resize_args selfPtr scale vscale kernel) env.ret
  if env.ret = 0 then (Except.ok env.outPtr, [callEv])
  else (Except.error (from_vips env.errBuf), callEv :: imageDrop out)

/-- Model of `Image::crop` (src/lib.rs lines 263-273): direct passthrough to
the native crop with the same zero/nonzero status contract as resize. -/
def crop (env : TransformEnv) (selfPtr : Ptr) (left top width height : Int) :
    Except Error Ptr × List VEvent :=
  let out : Ptr := 0
  let callEv := VEvent.vipsCrop selfPtr left top width height env.ret
  if env.ret = 0 then (Except.ok env.outPtr, [callEv])
  else (Except.error (from_vips env.errBuf), callEv :: imageDrop out)

/-- Model of `Image::rotate` (src/lib.rs lines 275-284): passthrough to the
native rotate with a closed angle enumeration (modelled as its integer
value), same status contract. -/
def rotate (env : TransformEnv) (selfPtr : Ptr) (angle : Int) :
    Except Error Ptr × List VEvent :=
  let out : Ptr := 0
  let callEv := VEvent.vipsRot selfPtr angle env.ret
  if env.ret = 0 then (Except.ok env.outPtr, [callEv])
  else (Except.error (from_vips env.errBuf), callEv :: imageDrop out)

/-- The arguments with which `Image::resize_to` invokes `Image::resize`. -/
structure ResizeCall where
  scale : ℚ
  vscale : Option ℚ
  kernel : Option Int
deriving DecidableEq, Repr

/-- Model of the scale computation and branch structure of `Image::resize_to`
(src/lib.rs lines 242-261), as a function of the current dimensions `W`, `H`
(results of `self.width()` and `self.height()`) and the optional targets.
The `f64` divisions of the source are modelled as exact division in `ℚ`
(the operands are exact `i32`-derived values). -/
def resize_to_call (W H : Int) (width height : Option Int) : ResizeCall :=
  match width, height with
  | some width, some height =>
      let hscale : ℚ := (width : ℚ) / (W : ℚ)
      let vscale : ℚ := (height : ℚ) / (H : ℚ)
      if hscale ≠ vscale then ⟨hscale, some vscale, none⟩
      else ⟨hscale, none, none⟩
  | some width, none => ⟨(width : ℚ) / (W : ℚ), none, none⟩
  | none, some height => ⟨(height : ℚ) / (H : ℚ), none, none⟩
  | none, none => ⟨1, none, none⟩

/-- Modelled from the spec: the dimension semantics of the native resize,
which lives in the external native library and not in this repository. The
output dimensions are the source dimensions scaled by the horizontal factor
and by the vertical factor (which defaults to the horizontal one), rounded to
the nearest integer. -/
def nativeResizeDims (W H : Int) (c : ResizeCall) : Int × Int :=
  (round (c.scale * (W : ℚ)), round ((c.vscale.getD c.scale) * (H : ℚ)))

/-- Native behaviour supplied to a construction operation: the pointer the
native open call returns (0 for null) and the state of the native error
buffer. -/
structure OpenEnv where
  openPtr : Ptr
  errBuf : Option String
deriving DecidableEq, Repr

/-- Model of `Image::from_file` (src/lib.rs lines 159-169): first the
implicit `initialize()` runs (contributing its native calls when the guard
has not run yet), then the path is converted with `CString::new`, failing
with a `NulError` before any further native call; otherwise the native
open-from-file is invoked, a null result yields the error captured from the
native buffer and a non-null result yields the wrapped image. -/
def from_file (ran : Bool) (env : OpenEnv) (path : List Nat) :
    Except Error Ptr × List VEvent :=
  let initEvs := init_trace ran
  match cstring_new path with
  | Except.error e => (Except.error e, initEvs)
  | Except.ok p =>
      let evs := initEvs ++ [VEvent.newFromFile p]
      if env.openPtr = 0 then (Except.error (from_vips env.errBuf), evs)
      else (Except.ok env.openPtr, evs)

/-- Model of `Image::from_memory` (src/lib.rs lines 171-219): the implicit
`initialize()` runs, the caller buffer is boxed, the native open-from-memory
is invoked with pointer, length, dimensions, band count and pixel format,
then — before any null check — the postclose completion notification carrying
the raw pointer to the boxed buffer is registered on the returned handle via
`g_signal_connect_data`; only then is the result checked: a null handle still
yields the error captured from the native buffer. -/
def from_memory (ran : Bool) (env : OpenEnv) (buf : List Nat)
    (width height bands format : Int) : Except Error Ptr × List VEvent :=
  let initEvs := init_trace ran
  let evs := initEvs ++
    [VEvent.newFromMemory buf.length width height bands format,
     VEvent.signalConnectPostclose env.openPtr buf]
  if env.openPtr = 0 then (Except.error (from_vips env.errBuf), evs)
  else (Except.ok env.openPtr, evs)

/-- Native behaviour supplied to `to_buffer`: the status code, the content of
the buffer the native writer allocates, and the error-buffer state. -/
structure ToBufferEnv where
  ret : Int
  buf : List Nat
  errBuf : Option String
deriving DecidableEq, Repr

/-- Model of `Image::to_buffer` (src/lib.rs lines 295-318): the suffix is
converted with `CString::new` (failing with a `NulError` before any native
call); the native write-to-buffer is invoked, and the allocated output
buffer is claimed into a caller-owned byte sequence before the status code
is branched on — the claim happens on both the success and the error path.
A zero status yields the bytes, a nonzero status yields the error captured
from the native buffer. -/
def to_buffer (env : ToBufferEnv) (selfPtr : Ptr) (suffix : List Nat) :
    Except Error (List Nat) × List VEvent :=
  match cstring_new suffix with
  | Except.error e => (Except.error e, [])
  | Except.ok sfx =>
      let evs := [VEvent.writeToBuffer selfPtr sfx env.ret, VEvent.claimBuffer env.buf]
      if env.ret = 0 then (Except.ok env.buf, evs)
      else (Except.error (from_vips env.errBuf), evs)

/-! Theorems. -/

theorem var_args_eq (opts : List (String × Option Arg)) :
    ∀ (args : List Arg) (term : Arg),
      var_args args opts term = args ++ optPairs opts ++ [term] := by
  induction opts with
  | nil => intro args term; simp [var_args, optPairs]
  | cons kv rest ih =>
      intro args term
      obtain ⟨k, v⟩ := kv
      cases v with
      | none => simp [var_args, optPairs, ih]
      | some x => simp [var_args, optPairs, ih]

theorem optPairs_all_absent (ks : List String) :
    optPairs (ks.map fun k => (k, (none : Option Arg))) = [] := by
  induction ks with
  | nil => rfl
  | cons k rest ih => simp [optPairs, ih]

theorem optPairs_all_present (kvs : List (String × Arg)) :
    optPairs (kvs.map fun kv => (kv.1, some kv.2))
      = kvs.foldr (fun kv acc => Arg.key kv.1 :: kv.2 :: acc) [] := by
  induction kvs with
  | nil => rfl
  | cons kv rest ih => simp [optPairs, ih]

/-- C1: every call assembled by the `var_args!` bridge consists of the
required arguments in declared order, then for each optional (key, value)
entry in declaration order the key and value exactly when the value is
present, and finally the null terminator; with no optional present the call
is the required arguments plus the terminator, with all present every pair
appears in declaration order; in particular this holds for the `vips_resize`
call of `Image::resize`. -/
theorem claim_C1 :
    (∀ (args : List Arg) (opts : List (String × Option Arg)) (term : Arg),
        var_args args opts term = args ++ optPairs opts ++ [term])
  ∧ (∀ (args : List Arg) (term : Arg) (ks : List String),
        var_args args (ks.map fun k => (k, (none : Option Arg))) term = args ++ [term])
  ∧ (∀ (args : List Arg) (term : Arg) (kvs : List (String × Arg)),
        var_args args (kvs.map fun kv => (kv.1, some kv.2)) term
          = args ++ kvs.foldr (fun kv acc => Arg.key kv.1 :: kv.2 :: acc) [] ++ [term])
  ∧ (∀ (inp : Ptr) (s : ℚ),
        vips_resize_args inp s none none = [Arg.img inp, Arg.outp, Arg.f s, Arg.nullTerm])
  ∧ (∀ (inp : Ptr) (s v : ℚ) (k : Int),
        vips_resize_args inp s (some v) (some k)
          = [Arg.img inp, Arg.outp, Arg.f s, Arg.key "vscale", Arg.f v,
             Arg.key "kernel", Arg.enum k, Arg.nullTerm]) := by
  refine ⟨fun args opts term => var_args_eq opts args term, ?_, ?_, ?_, ?_⟩
  · intro args term ks
    rw [var_args_eq, optPairs_all_absent]
    simp
  · intro args term kvs
    rw [var_args_eq, optPairs_all_present]
  · intro inp s
    rfl
  · intro inp s v k
    rfl

/-- C5: the `Image` destructor issues the native release unconditionally on
the held pointer, with no null check, so it emits `unref 0` on the null
sentinel; consequently the error path of every transform operation (resize,
crop, rotate), which discards an output wrapper still holding the null
sentinel, performs a release call on the null handle. -/
theorem claim_C5 :
    (∀ p : Ptr, imageDrop p = [VEvent.unref p])
  ∧ imageDrop 0 = [VEvent.unref 0]
  ∧ (∀ (env : TransformEnv) (selfPtr : Ptr) (scale : ℚ) (vscale : Option ℚ)
        (kernel : Option Int),
        env.ret ≠ 0 → VEvent.unref 0 ∈ (resize env selfPtr scale vscale kernel).2)
  ∧ (∀ (env : TransformEnv) (selfPtr : Ptr) (l t w h : Int),
        env.ret ≠ 0 → VEvent.unref 0 ∈ (crop env selfPtr l t w h).2)
  ∧ (∀ (env : TransformEnv) (selfPtr : Ptr) (a : Int),
        env.ret ≠ 0 → VEvent.unref 0 ∈ (rotate env selfPtr a).2) := by
  refine ⟨fun p => rfl, rfl, ?_, ?_, ?_⟩
  · intro env selfPtr scale vscale kernel h
    simp [resize, imageDrop, h]
  · intro env selfPtr l t w h hret
    simp [crop, imageDrop, hret]
  · intro env selfPtr a h
    simp [rotate, imageDrop, h]

/-- Witness for C5: a failing resize, crop and rotate each emit a release
call on the null handle. -/
theorem claim_C5_witness :
    VEvent.unref 0 ∈ (resize ⟨1, 7, none⟩ 5 2 none none).2
  ∧ VEvent.unref 0 ∈ (crop ⟨1, 7, none⟩ 5 0 0 3 3).2
  ∧ VEvent.unref 0 ∈ (rotate ⟨1, 7, none⟩ 5 90).2 :=
  ⟨claim_C5.2.2.1 ⟨1, 7, none⟩ 5 2 none none (by decide),
   claim_C5.2.2.2.1 ⟨1, 7, none⟩ 5 0 0 3 3 (by decide),
   claim_C5.2.2.2.2 ⟨1, 7, none⟩ 5 90 (by decide)⟩

/-- C6: initialization is single-shot for the process: a call on an
already-run guard is a no-op leaving the state unchanged (and any sequence of
later calls is too), while the one winning call performs the native
initialization using its own options — the plain variant uses the defaults
(program name "rips", no leak-check toggle), the options variant uses that
call's name and leak setting. -/
theorem claim_C6 :
    (∀ (opts : Option InitOptions) (s : InitState), s.ran = true →
        init_with_maybe_options opts s = s)
  ∧ (∀ (opts : Option InitOptions) (s : InitState), s.ran = false →
        (init_with_maybe_options opts s).ran = true
      ∧ (init_with_maybe_options opts s).calls = s.calls ++ init_events opts)
  ∧ init_events none = [VEvent.vipsInit ripsName, VEvent.registerAtexit]
  ∧ (∀ (n : List Nat) (b : Bool), 0 ∉ n →
        init_events (some ⟨some n, some b⟩)
          = [VEvent.vipsInit n, VEvent.vipsLeakSet b, VEvent.registerAtexit])
  ∧ (∀ (l : List (Option InitOptions)) (s : InitState), s.ran = true →
        l.foldl (fun st o => init_with_maybe_options o st) s = s) := by
  refine ⟨?_, ?_, rfl, ?_, ?_⟩
  · intro opts s h
    simp [init_with_maybe_options, h]
  · intro opts s h
    constructor <;> simp [init_with_maybe_options, h]
  · intro n b h
    simp [init_events, cstring_new, h, Except.toOption]
  · intro l s h
    induction l with
    | nil => rfl
    | cons o rest ih =>
        simp only [List.foldl_cons]
        rw [show init_with_maybe_options o s = s from by simp [init_with_maybe_options, h]]
        exact ih

/-- Witness for C6: a later call is a no-op; a winning call marks the guard
as run; an options call with a clean name uses that name and leak toggle; a
sequence of later calls leaves the state unchanged. -/
theorem claim_C6_witness :
    init_with_maybe_options none ⟨true, [VEvent.vipsInit ripsName]⟩
      = ⟨true, [VEvent.vipsInit ripsName]⟩
  ∧ (init_with_maybe_options (some ⟨some [97], some true⟩) ⟨false, []⟩).ran = true
  ∧ init_events (some ⟨some [97], some true⟩)
      = [VEvent.vipsInit [97], VEvent.vipsLeakSet true, VEvent.registerAtexit]
  ∧ [some ⟨none, none⟩, none].foldl (fun st o => init_with_maybe_options o st) ⟨true, []⟩
      = ⟨true, []⟩ :=
  ⟨claim_C6.1 none ⟨true, [VEvent.vipsInit ripsName]⟩ rfl,
   (claim_C6.2.1 (some ⟨some [97], some true⟩) ⟨false, []⟩ rfl).1,
   claim_C6.2.2.2.1 [97] true (by decide),
   claim_C6.2.2.2.2 [some ⟨none, none⟩, none] ⟨true, []⟩ rfl⟩

/-- Counterexample for C2: on the winning initialization with a program name
containing an embedded nul byte, the code does not fail with a surfaced
NulError — the conversion failure is discarded by `.ok()` and the native init
is invoked with the default name "rips", exactly the silent replacement the
claim rules out. -/
theorem claim_C2_counterexample :
    [97, 0, 98].contains 0 = true
  ∧ init_with_options ⟨some [97, 0, 98], none⟩ ⟨false, []⟩
      = ⟨true, [VEvent.vipsInit ripsName, VEvent.registerAtexit]⟩
  ∧ ripsName ≠ [97, 0, 98] := by
  refine ⟨by decide, by decide, by decide⟩

/-- C2 (amended): on the first (winning) initialization, if the supplied
program name contains an embedded nul byte, the conversion failure is
silently swallowed and the native init is invoked with the default name
"rips"; no error is surfaced (the initialization functions return unit and
have no error channel). -/
theorem claim_C2 :
    ∀ (o : InitOptions) (s : InitState) (n : List Nat),
      s.ran = false → o.name = some n → 0 ∈ n →
      (init_with_options o s).calls
        = s.calls ++ VEvent.vipsInit ripsName ::
            ((match o.leak_checks_on with
              | some b => [VEvent.vipsLeakSet b]
              | none => []) ++ [VEvent.registerAtexit]) := by
  intro o s n hs hn hz
  simp [init_with_options, init_with_maybe_options, hs, init_events, hn, cstring_new, hz,
    Except.toOption]

/-- Witness for C2: a concrete nul-containing name on a fresh state leads to
a native init with the default name. -/
theorem claim_C2_witness :
    (init_with_options ⟨some [97, 0, 98], some true⟩ ⟨false, []⟩).calls
      = [VEvent.vipsInit ripsName, VEvent.vipsLeakSet true, VEvent.registerAtexit] :=
  claim_C2 ⟨some [97, 0, 98], some true⟩ ⟨false, []⟩ [97, 0, 98] rfl rfl (by decide)

/-- C3: for `resize_to` with both targets given on an image of positive
dimensions (W, H), the horizontal scale is w/W and the vertical scale is
h/H; when they differ, resize is invoked with both the scale and the vscale
argument; when they are equal, resize is invoked with the single scale and
no vscale. -/
theorem claim_C3 :
    ∀ (W H w h : Int), 0 < W → 0 < H →
      (((w : ℚ) / (W : ℚ) ≠ (h : ℚ) / (H : ℚ)) →
          resize_to_call W H (some w) (some h)
            = ⟨(w : ℚ) / (W : ℚ), some ((h : ℚ) / (H : ℚ)), none⟩)
    ∧ (((w : ℚ) / (W : ℚ) = (h : ℚ) / (H : ℚ)) →
          resize_to_call W H (some w) (some h)
            = ⟨(w : ℚ) / (W : ℚ), none, none⟩) := by
  intro W H w h hW hH
  constructor
  · intro hne
    simp [resize_to_call, hne]
  · intro heq
    simp [resize_to_call, heq]

/-- Witness for C3: on a 2 by 2 image, targets (1, 2) have differing scales
and produce a double-scale call; on a 2 by 4 image, targets (1, 2) have equal
scales and produce a single-scale call. -/
theorem claim_C3_witness :
    resize_to_call 2 2 (some 1) (some 2)
      = ⟨((1 : ℤ) : ℚ) / ((2 : ℤ) : ℚ), some (((2 : ℤ) : ℚ) / ((2 : ℤ) : ℚ)), none⟩
  ∧ resize_to_call 2 4 (some 1) (some 2)
      = ⟨((1 : ℤ) : ℚ) / ((2 : ℤ) : ℚ), none, none⟩ :=
  ⟨(claim_C3 2 2 1 2 (by decide) (by decide)).1 (by norm_num),
   (claim_C3 2 4 1 2 (by decide) (by decide)).2 (by norm_num)⟩

/-- C7: for `resize_to` with only a width given the image is resized
uniformly by the width ratio; with only a height given, uniformly by the
height ratio; with neither given an identity resize with scale 1 is
performed, whose output dimensions equal the source dimensions (for positive
source dimensions, under the spec-modelled native resize dimension
semantics). -/
theorem claim_C7 :
    ∀ (W H w h : Int), 0 < W → 0 < H →
      resize_to_call W H (some w) none = ⟨(w : ℚ) / (W : ℚ), none, none⟩
    ∧ resize_to_call W H none (some h) = ⟨(h : ℚ) / (H : ℚ), none, none⟩
    ∧ resize_to_call W H none none = ⟨1, none, none⟩
    ∧ nativeResizeDims W H (resize_to_call W H none none) = (W, H) := by
  intro W H w h hW hH
  refine ⟨rfl, rfl, rfl, ?_⟩
  simp [nativeResizeDims, resize_to_call]

/-- Witness for C7: on a 3 by 5 image, a single width target of 6 scales by
6/3 uniformly, and the no-target call is the identity leaving the dimensions
at (3, 5). -/
theorem claim_C7_witness :
    resize_to_call 3 5 (some 6) none = ⟨((6 : ℤ) : ℚ) / ((3 : ℤ) : ℚ), none, none⟩
  ∧ resize_to_call 3 5 none none = ⟨1, none, none⟩
  ∧ nativeResizeDims 3 5 (resize_to_call 3 5 none none) = (3, 5) :=
  ⟨(claim_C7 3 5 6 10 (by decide) (by decide)).1,
   (claim_C7 3 5 6 10 (by decide) (by decide)).2.2.1,
   (claim_C7 3 5 6 10 (by decide) (by decide)).2.2.2⟩

theorem init_events_none :
    init_events none = [VEvent.vipsInit ripsName, VEvent.registerAtexit] := rfl

/-- C4: `Image::from_memory` registers the postclose completion notification
carrying the boxed caller buffer with the native handle unconditionally — the
trace is the same whether or not the open call returned null — and a null
result is still returned as an error captured from the native error buffer,
even though the notification was already registered. -/
theorem claim_C4 :
    ∀ (ran : Bool) (env : OpenEnv) (buf : List Nat) (w h bands fmt : Int),
      (from_memory ran env buf w h bands fmt).2
        = init_trace ran ++
            [VEvent.newFromMemory buf.length w h bands fmt,
             VEvent.signalConnectPostclose env.openPtr buf]
    ∧ (env.openPtr = 0 →
          (from_memory ran env buf w h bands fmt).1 = Except.error (from_vips env.errBuf)
        ∧ VEvent.signalConnectPostclose 0 buf ∈ (from_memory ran env buf w h bands fmt).2)
    ∧ (env.openPtr ≠ 0 →
          (from_memory ran env buf w h bands fmt).1 = Except.ok env.openPtr) := by
  intro ran env buf w h bands fmt
  refine ⟨?_, ?_, ?_⟩
  · by_cases hp : env.openPtr = 0 <;> simp [from_memory, hp]
  · intro hp
    constructor
    · simp [from_memory, hp]
    · simp [from_memory, hp]
  · intro hp
    simp [from_memory, hp]

/-- Witness for C4: a null open result still yields the captured native
error while the postclose notification for the caller buffer is in the
trace; a non-null result yields the wrapped image. -/
theorem claim_C4_witness :
    (from_memory true ⟨0, some "bad"⟩ [1, 2] 1 2 1 0).1
      = Except.error (Error.Vips (some "bad"))
  ∧ VEvent.signalConnectPostclose 0 [1, 2] ∈ (from_memory true ⟨0, some "bad"⟩ [1, 2] 1 2 1 0).2
  ∧ (from_memory true ⟨9, none⟩ [1, 2] 1 2 1 0).1 = Except.ok 9 :=
  ⟨((claim_C4 true ⟨0, some "bad"⟩ [1, 2] 1 2 1 0).2.1 rfl).1,
   ((claim_C4 true ⟨0, some "bad"⟩ [1, 2] 1 2 1 0).2.1 rfl).2,
   (claim_C4 true ⟨9, none⟩ [1, 2] 1 2 1 0).2.2 (by decide)⟩

/-- Counterexample for C8: on the very first use, `Image::from_file` on a
path containing a nul byte returns the NulError but does make native calls —
the implicit `initialize()` runs the native init and registers the shutdown
hook before the path is converted, so the trace is not empty. -/
theorem claim_C8_counterexample :
    (from_file false ⟨7, none⟩ [0]).1 = Except.error (Error.NulError 0)
  ∧ (from_file false ⟨7, none⟩ [0]).2 = [VEvent.vipsInit ripsName, VEvent.registerAtexit]
  ∧ (from_file false ⟨7, none⟩ [0]).2 ≠ [] := by
  refine ⟨rfl, rfl, by decide⟩

/-- C8 (amended): `Image::from_file` on a path with an embedded nul byte
returns a NulError-kind error and makes no native call beyond those of the
implicit one-time process initialization (in particular no open-from-file
call, and no call at all when the process is already initialized); otherwise
it invokes the native open-from-file, a null result yields the error captured
from the native buffer and a non-null result yields the wrapped image. -/
theorem claim_C8 :
    ∀ (ran : Bool) (env : OpenEnv) (path : List Nat),
      init_trace true = []
    ∧ (0 ∈ path →
          (from_file ran env path).1
            = Except.error (Error.NulError (path.findIdx (fun b => b = 0)))
        ∧ (from_file ran env path).2 = init_trace ran
        ∧ ∀ p, VEvent.newFromFile p ∉ (from_file ran env path).2)
    ∧ (0 ∉ path →
          (from_file ran env path).2 = init_trace ran ++ [VEvent.newFromFile path]
        ∧ (env.openPtr = 0 →
            (from_file ran env path).1 = Except.error (from_vips env.errBuf))
        ∧ (env.openPtr ≠ 0 → (from_file ran env path).1 = Except.ok env.openPtr)) := by
  intro ran env path
  refine ⟨rfl, ?_, ?_⟩
  · intro hz
    have hc : cstring_new path
        = Except.error (Error.NulError (path.findIdx (fun b => b = 0))) := by
      simp [cstring_new, hz]
    have h2 : (from_file ran env path).2 = init_trace ran := by
      simp [from_file, hc]
    refine ⟨by simp [from_file, hc], h2, ?_⟩
    intro p
    rw [h2]
    cases ran <;> simp [init_trace, init_events_none]
  · intro hz
    have hc : cstring_new path = Except.ok path := by
      simp [cstring_new, hz]
    refine ⟨?_, ?_, ?_⟩
    · by_cases hp : env.openPtr = 0 <;> simp [from_file, hc, hp]
    · intro hp; simp [from_file, hc, hp]
    · intro hp; simp [from_file, hc, hp]

/-- Witness for C8: a nul-free path on an initialized process makes exactly
the open call and branches on its result; a nul path yields the NulError
with no open call in the trace. -/
theorem claim_C8_witness :
    (from_file true ⟨0, some "no such file"⟩ [112]).1
      = Except.error (Error.Vips (some "no such file"))
  ∧ (from_file true ⟨8, none⟩ [112]).1 = Except.ok 8
  ∧ (from_file true ⟨8, none⟩ [112, 0]).2 = [] :=
  ⟨((claim_C8 true ⟨0, some "no such file"⟩ [112]).2.2 (by decide)).2.1 rfl,
   ((claim_C8 true ⟨8, none⟩ [112]).2.2 (by decide)).2.2 (by decide),
   ((claim_C8 true ⟨8, none⟩ [112, 0]).2.1 (by decide)).2.1⟩

/-- C9: `Image::to_buffer` claims the native-allocated output buffer into a
caller-owned byte sequence before branching on the status code — the trace,
including the claim of the allocation, is the same for every status —, a
zero status yields the bytes and a nonzero status yields the error captured
from the native buffer. -/
theorem claim_C9 :
    ∀ (env : ToBufferEnv) (selfPtr : Ptr) (suffix : List Nat), 0 ∉ suffix →
      (to_buffer env selfPtr suffix).2
        = [VEvent.writeToBuffer selfPtr suffix env.ret, VEvent.claimBuffer env.buf]
    ∧ (env.ret = 0 → (to_buffer env selfPtr suffix).1 = Except.ok env.buf)
    ∧ (env.ret ≠ 0 →
        (to_buffer env selfPtr suffix).1 = Except.error (from_vips env.errBuf)) := by
  intro env selfPtr suffix hz
  have hc : cstring_new suffix = Except.ok suffix := by
    simp [cstring_new, hz]
  refine ⟨?_, ?_, ?_⟩
  · by_cases hr : env.ret = 0 <;> simp [to_buffer, hc, hr]
  · intro hr; simp [to_buffer, hc, hr]
  · intro hr; simp [to_buffer, hc, hr]

/-- Witness for C9: a zero status yields the claimed bytes; a nonzero status
yields the captured native error while the trace still records the claim of
the allocation. -/
theorem claim_C9_witness :
    (to_buffer ⟨0, [3, 4], none⟩ 5 [112]).1 = Except.ok [3, 4]
  ∧ (to_buffer ⟨1, [3, 4], some "e"⟩ 5 [112]).1 = Except.error (Error.Vips (some "e"))
  ∧ (to_buffer ⟨1, [3, 4], some "e"⟩ 5 [112]).2
      = [VEvent.writeToBuffer 5 [112] 1, VEvent.claimBuffer [3, 4]] :=
  ⟨(claim_C9 ⟨0, [3, 4], none⟩ 5 [112] (by decide)).2.1 rfl,
   (claim_C9 ⟨1, [3, 4], some "e"⟩ 5 [112] (by decide)).2.2 (by decide),
   (claim_C9 ⟨1, [3, 4], some "e"⟩ 5 [112] (by decide)).1⟩

/-- Counterexample for C10: the claim says the error carries no message
exactly when the buffer is empty or null, but a non-null empty buffer yields
an error carrying the (empty) captured message, which Display renders as the
empty string and not as the fixed fallback. -/
theorem claim_C10_counterexample :
    from_vips (some "") ≠ Error.Vips none
  ∧ display (from_vips (some "")) = ""
  ∧ display (from_vips (some "")) ≠ "Unknown VIPS error" := by
  refine ⟨by simp [from_vips], rfl, by simp [from_vips, display]⟩

/-- C10 (amended): `Error::from_vips` produces a native-error value carrying
no message exactly when the native error-buffer pointer is null; any
non-null buffer, including an empty one, yields a captured (lossily decoded,
possibly empty) message; Display renders a message-less native error as the
fixed fallback string "Unknown VIPS error" and a native error with a
message — even the empty one — as that captured message. -/
theorem claim_C10 :
    from_vips none = Error.Vips none
  ∧ (∀ s, from_vips (some s) = Error.Vips (some s))
  ∧ display (Error.Vips none) = "Unknown VIPS error"
  ∧ (∀ s, display (Error.Vips (some s)) = s)
  ∧ display (from_vips none) = "Unknown VIPS error"
  ∧ display (from_vips (some "")) = "" :=
  ⟨rfl, fun _ => rfl, rfl, fun _ => rfl, rfl, rfl⟩

end Rips
